import Mathlib

/-!
# Portfolio interaction layer (Assets/js/main.js)

A shallow embedding of the classes of `main.js`: `ScrollAnimator`,
`NavigationHighlighter`, `CertificateGallery`, `ProjectDetailsModal` and
`ProjectFilter`.  DOM elements are records holding exactly the attributes and
properties the script reads or writes; an element's `classList` is the ordered
token list of a `DOMTokenList`; event listeners registered with
`addEventListener` are explicit pending continuations in the state.
-/

namespace Portfolio

/-! ## DOMTokenList -/

/-- The method `classList.contains(token)`. -/
def classContains (c : List String) (t : String) : Bool :=
  decide (t ∈ c)

/-- The method `classList.add(token)`: appends the token unless it is present. -/
def classAdd (c : List String) (t : String) : List String :=
  if t ∈ c then c else c ++ [t]

/-- The method `classList.remove(token)`: drops every occurrence of the token. -/
def classRemove (c : List String) (t : String) : List String :=
  c.filter (fun x => decide (x ≠ t))

/-! ## NavigationHighlighter -/

/-- A `main section[id]` element: its `id` and the document offset of its top edge. -/
structure Section where
  id : String
  top : Int
  deriving DecidableEq, Repr

/-- A `header nav a` element: its `href` attribute (`none` when the attribute is
missing, as `getAttribute` returns `null`) and its class list. -/
structure NavLink where
  href : Option String
  classList : List String
  deriving DecidableEq, Repr

/-- The scrolling state of the window. -/
structure Window where
  scrollY : Int
  deriving DecidableEq, Repr

/-- The property `window.pageYOffset` is an alias of `window.scrollY`. -/
def Window.pageYOffset (w : Window) : Int := w.scrollY

/-- The property `document.documentElement.scrollTop` of the scrolling element. -/
def Window.scrollTop (w : Window) : Int := w.scrollY

/-- The operator `a || b` on numbers: `a` when it is truthy (non-zero), else `b`. -/
def jsOr (a b : Int) : Int := if a ≠ 0 then a else b

/-- The expression
`window.scrollY || window.pageYOffset || document.documentElement.scrollTop`. -/
def scrollPosition (w : Window) : Int :=
  jsOr (jsOr w.scrollY w.pageYOffset) w.scrollTop

/-- The value `section.getBoundingClientRect().top`: the top edge relative to the
viewport. -/
def rectTop (w : Window) (s : Section) : Int := s.top - w.scrollY

/-- One iteration of the loop over the sections in `handleScroll`. -/
def sectionStep (w : Window) (currentId : Option String) (s : Section) : Option String :=
  let offsetTop := rectTop w s + scrollPosition w - 120
  if scrollPosition w ≥ offsetTop then some s.id else currentId

/-- The value of `currentId` after the loop over the sections (`null` is `none`). -/
def currentId (w : Window) (sections : List Section) : Option String :=
  sections.foldl (sectionStep w) none

/-- The test `currentId && href === '#' + currentId`. -/
def linkMatches (cur : Option String) (href : Option String) : Bool :=
  match cur with
  | none => false
  | some id => decide (id ≠ "") && decide (href = some ("#" ++ id))

/-- One iteration of the loop over the links in `handleScroll`. -/
def highlightLink (cur : Option String) (l : NavLink) : NavLink :=
  let cleared := classRemove l.classList "nav-link-active"
  if linkMatches cur l.href then
    { l with classList := classAdd cleared "nav-link-active" }
  else
    { l with classList := cleared }

/-- The method `NavigationHighlighter.handleScroll`: the links after one pass. -/
def handleScroll (w : Window) (sections : List Section) (links : List NavLink) :
    List NavLink :=
  links.map (highlightLink (currentId w sections))

/-- The adjusted offset of a section: its document top offset minus the lookahead
of 120. -/
def adjustedOffset (s : Section) : Int := s.top - 120

/-- The last section, in document order, whose adjusted offset is at most the scroll
position. -/
def lastQualifying (scroll : Int) (sections : List Section) : Option Section :=
  (sections.filter (fun s => decide (adjustedOffset s ≤ scroll))).getLast?

/-- Whether a link carries the active marker. -/
def isActive (l : NavLink) : Bool := classContains l.classList "nav-link-active"

/-- The number of links that carry the active marker. -/
def activeCount (links : List NavLink) : Nat := (links.filter isActive).length

/-! ## ProjectFilter -/

/-- The character class `\s` of an ECMAScript regular expression: the white space
and line terminator code points. -/
def isJsSpace (c : Char) : Bool :=
  let n := c.toNat
  n == 9 || n == 10 || n == 11 || n == 12 || n == 13 || n == 32 || n == 160 ||
    n == 5760 || (8192 ≤ n && n ≤ 8202) || n == 8232 || n == 8233 || n == 8239 ||
    n == 8287 || n == 12288 || n == 65279

/-- The scan of `String.prototype.split` with the separator `/\s+/`.  The second
argument is the piece being read, reversed (`some cur`), or `none` while a run of
white space that has already closed a piece is being skipped.  A separator at the
start gives a leading empty piece and one at the end a trailing empty piece, as
in ECMAScript. -/
def splitAux : List Char → Option (List Char) → List (List Char)
  | [], none => [[]]
  | [], some cur => [cur.reverse]
  | c :: cs, none =>
    if isJsSpace c then splitAux cs none else splitAux cs (some [c])
  | c :: cs, some cur =>
    if isJsSpace c then cur.reverse :: splitAux cs none
    else splitAux cs (some (c :: cur))

/-- The call `s.split(/\s+/)`. -/
def jsSplitSpaces (s : String) : List String :=
  (splitAux s.data (some [])).map String.mk

/-- A `[data-project-tags]` card: the attribute value (`none` when `getAttribute`
returns `null`) and the class list. -/
structure ProjectCard where
  tags : Option String
  classList : List String
  deriving DecidableEq, Repr

/-- The expression `card.getAttribute('data-project-tags') || ''`. -/
def tagsAttribute (card : ProjectCard) : String :=
  match card.tags with
  | none => ""
  | some t => if t ≠ "" then t else ""

/-- The value of `isMatch` in `applyFilter`; `toLowerCase` is the host's
`String.prototype.toLowerCase`. -/
def isMatch (toLowerCase : String → String) (filter : String) (card : ProjectCard) :
    Bool :=
  let normalized := toLowerCase filter
  let tags := toLowerCase (tagsAttribute card)
  decide (normalized = "all") ||
    (jsSplitSpaces tags).any (fun tag => decide (tag ≠ "") && decide (tag = normalized))

/-- The body of the loop over the cards in `applyFilter`. -/
def applyFilterCard (toLowerCase : String → String) (filter : String)
    (card : ProjectCard) : ProjectCard :=
  if isMatch toLowerCase filter card then
    { card with
      classList := classAdd (classRemove card.classList "hidden") "cert-animate-in" }
  else
    { card with classList := classAdd card.classList "hidden" }

/-- The method `ProjectFilter.applyFilter`. -/
def applyFilter (toLowerCase : String → String) (filter : String)
    (cards : List ProjectCard) : List ProjectCard :=
  cards.map (applyFilterCard toLowerCase filter)

/-- Whether a card carries the `hidden` marker. -/
def ProjectCard.isHidden (card : ProjectCard) : Bool :=
  classContains card.classList "hidden"

/-- The tag list of a tag attribute value as the specification words it: the
string is cut at every white space character and the non-empty pieces are the
tags. -/
def tagList (s : String) : List String :=
  ((s.data.splitOnP isJsSpace).filter (fun piece => decide (piece ≠ []))).map String.mk

/-- Lower-casing of the ASCII letters, an instance of the host's `toLowerCase`
used in the worked examples. -/
def asciiLower (s : String) : String :=
  String.mk (s.data.map Char.toLower)

/-! ## ScrollAnimator -/

/-- The elements matched by the selector, numbered in document order, with their
class lists, and the targets the `IntersectionObserver` currently observes. -/
structure ScrollAnimator where
  classes : Nat → List String
  observed : List Nat

/-- An `IntersectionObserverEntry`: its target and its `isIntersecting` flag. -/
structure Entry where
  target : Nat
  isIntersecting : Bool
  deriving DecidableEq, Repr

/-- The method `ScrollAnimator.init` on a page with `count` matching elements: every
element is observed, unless `IntersectionObserver` is missing or nothing matches. -/
def ScrollAnimator.init (s : ScrollAnimator) (hasIntersectionObserver : Bool)
    (count : Nat) : ScrollAnimator :=
  if !hasIntersectionObserver || count == 0 then s
  else { s with observed := List.range count }

/-- The body of `entries.forEach` in the observer callback. -/
def ScrollAnimator.onEntry (s : ScrollAnimator) (entry : Entry) : ScrollAnimator :=
  if entry.isIntersecting then
    { classes :=
        Function.update s.classes entry.target
          (classAdd (s.classes entry.target) "section-visible"),
      observed := s.observed.filter (fun t => decide (t ≠ entry.target)) }
  else s

/-- The observer callback, run on one notification (a list of entries). -/
def ScrollAnimator.callback (s : ScrollAnimator) (entries : List Entry) : ScrollAnimator :=
  entries.foldl ScrollAnimator.onEntry s

/-- The state after a sequence of notifications. -/
def ScrollAnimator.run (s : ScrollAnimator) (notifications : List (List Entry)) :
    ScrollAnimator :=
  notifications.foldl ScrollAnimator.callback s

/-- Whether element `x` carries the `section-visible` marker. -/
def ScrollAnimator.revealed (s : ScrollAnimator) (x : Nat) : Bool :=
  classContains (s.classes x) "section-visible"

/-- Whether a notification reports element `x` as intersecting. -/
def reportsIntersecting (entries : List Entry) (x : Nat) : Bool :=
  entries.any (fun e => e.isIntersecting && decide (e.target = x))

/-- The number of notifications of the sequence in which element `x` goes from not
carrying the marker to carrying it. -/
def ScrollAnimator.revealCount (s : ScrollAnimator) :
    List (List Entry) → Nat → Nat
  | [], _ => 0
  | entries :: rest, x =>
    (if !s.revealed x && (s.callback entries).revealed x then 1 else 0) +
      ScrollAnimator.revealCount (s.callback entries) rest x

/-! ## Overlays: the lightbox and the details overlay -/

/-- An element that is animated by marker classes: its class list and the number
of `handleEnd` listeners currently registered on it for `animationend`. -/
structure AnimatedElement where
  classList : List String
  animationEnd : Nat
  deriving DecidableEq, Repr

/-- An overlay element (`#cert-modal` or `#project-modal`): its class list and its
inner element, as found by `modal.querySelector` (`none` for `null`). -/
structure Modal where
  classList : List String
  inner : Option AnimatedElement
  deriving DecidableEq, Repr

/-- The `className` both `createModal` methods give the overlay. -/
def modalClassName : List String :=
  ["fixed", "inset-0", "z-50", "hidden", "items-center", "justify-center",
    "bg-black/70", "p-4"]

/-- The class list of the lightbox's inner element in the markup of `createModal`. -/
def certInnerClassName : List String :=
  ["cert-modal-inner", "relative", "max-w-3xl", "w-full", "rounded-2xl",
    "bg-slate-950", "border", "border-slate-700/80", "shadow-2xl"]

/-- The class list of the details overlay's inner element in the markup of
`createModal`. -/
def projectInnerClassName : List String :=
  ["project-modal-inner", "relative", "max-w-3xl", "w-full", "max-h-[80vh]",
    "overflow-hidden", "rounded-2xl", "bg-slate-950", "border",
    "border-slate-700/80", "shadow-2xl"]

/-- The showing part shared by `CertificateGallery.openModal` and
`ProjectDetailsModal.open`: `hidden` removed, `flex` added, and on the inner
element, when there is one, both animation markers removed and `modal-animate-in`
added. -/
def Modal.show (m : Modal) : Modal :=
  { classList := classAdd (classRemove m.classList "hidden") "flex",
    inner := m.inner.map (fun inner =>
      { inner with
        classList :=
          classAdd
            (classRemove (classRemove inner.classList "modal-animate-in")
              "modal-animate-out")
            "modal-animate-in" }) }

/-- The body shared by `CertificateGallery.closeModal` and
`ProjectDetailsModal.close` once the overlay is known to exist: with an inner
element, the exit marker replaces the entry marker and a new `handleEnd` listener
is registered; without one, the overlay is hidden at once. -/
def Modal.close (m : Modal) : Modal :=
  match m.inner with
  | some inner =>
    { m with
      inner := some
        { classList :=
            classAdd (classRemove inner.classList "modal-animate-in") "modal-animate-out",
          animationEnd := inner.animationEnd + 1 } }
  | none =>
    { m with classList := classRemove (classAdd m.classList "hidden") "flex" }

/-- One run of a `handleEnd` listener of `closeModal` or `close`: it removes
itself, clears the exit marker and hides the overlay. -/
def Modal.handleEnd (m : Modal) : Modal :=
  match m.inner with
  | some inner =>
    { classList := classRemove (classAdd m.classList "hidden") "flex",
      inner := some
        { classList := classRemove inner.classList "modal-animate-out",
          animationEnd := inner.animationEnd - 1 } }
  | none => m

/-- The `animationend` event dispatched on the inner element: every registered
`handleEnd` listener runs once. -/
def Modal.animationEnd (m : Modal) : Modal :=
  match m.inner with
  | some inner => Nat.iterate Modal.handleEnd inner.animationEnd m
  | none => m

/-- Whether the overlay is shown, that is, does not carry `hidden`. -/
def Modal.isShown (m : Modal) : Bool := !classContains m.classList "hidden"

/-- The number of completion listeners pending on the inner element. -/
def Modal.pending (m : Modal) : Nat :=
  match m.inner with
  | some inner => inner.animationEnd
  | none => 0

/-! ## CertificateGallery -/

/-- The inline style value `gallery.style.maxHeight`: the empty string or a number
of pixels. -/
inductive MaxHeight where
  | unset
  | px (n : Nat)
  deriving DecidableEq, Repr

/-- The image element of the lightbox. -/
structure Image where
  src : String
  alt : String
  deriving DecidableEq, Repr

/-- A `[data-cert-card]` element: its `data-src` and `data-title` attributes. -/
structure CertCard where
  dataSrc : Option String
  dataTitle : Option String
  deriving DecidableEq, Repr

/-- The fields of a `CertificateGallery` and the parts of the document it reads and
writes, on a page where the gallery container, the toggle button and the toggle
wrapper are present: the container's class list and inline `max-height`, the
`.cert-extra` elements in document order, the button's text, the wrapper's class
list, the cards, the lightbox (`null` fields are `none`; `modalCaption` holds the
caption's text) and the three measured fields. -/
structure CertificateGallery where
  galleryClasses : List String
  maxHeight : MaxHeight
  extras : List AnimatedElement
  toggleText : String
  wrapperClasses : List String
  cards : List CertCard
  modal : Option Modal
  modalImage : Option Image
  modalCaption : Option String
  collapsedHeight : Nat
  expandedHeight : Nat
  isExpanded : Bool
  deriving DecidableEq, Repr

/-- The constructor of `CertificateGallery` over the document's markup. -/
def CertificateGallery.new (galleryClasses : List String) (maxHeight : MaxHeight)
    (extras : List AnimatedElement) (toggleText : String) (wrapperClasses : List String)
    (cards : List CertCard) : CertificateGallery :=
  { galleryClasses := galleryClasses, maxHeight := maxHeight, extras := extras,
    toggleText := toggleText, wrapperClasses := wrapperClasses, cards := cards,
    modal := none, modalImage := none, modalCaption := none,
    collapsedHeight := 0, expandedHeight := 0, isExpanded := false }

/-- The method `CertificateGallery.createModal`. -/
def CertificateGallery.createModal (s : CertificateGallery) : CertificateGallery :=
  { s with
    modal := some { classList := modalClassName,
                    inner := some { classList := certInnerClassName, animationEnd := 0 } },
    modalImage := some { src := "", alt := "Certificate preview" },
    modalCaption := some "" }

/-- The method `CertificateGallery.init`; `offsetHeight` is the value read from
`gallery.offsetHeight`. -/
def CertificateGallery.init (s : CertificateGallery) (offsetHeight : Nat) :
    CertificateGallery :=
  if s.cards.isEmpty then s
  else
    let s1 := { s with galleryClasses := classAdd s.galleryClasses "cert-gallery-animate" }
    let s2 := { s1 with collapsedHeight := offsetHeight }
    let s3 := { s2 with expandedHeight := s2.collapsedHeight }
    let s4 := { s3 with maxHeight := MaxHeight.px s3.collapsedHeight }
    s4.createModal

/-- The value of `isHidden` in `handleToggle`:
`extras.length && extras[0].classList.contains('hidden')`. -/
def firstExtraHidden (extras : List AnimatedElement) : Bool :=
  match extras with
  | [] => false
  | first :: _ => classContains first.classList "hidden"

/-- The branch of the loop over the extras that shows a card. -/
def showCard (card : AnimatedElement) : AnimatedElement :=
  { card with
    classList :=
      classAdd
        (classRemove
          (classRemove (classRemove card.classList "hidden") "cert-animate-out")
          "cert-animate-in")
        "cert-animate-in" }

/-- The branch of the loop over the extras that starts hiding a card and registers
a `handleEnd` listener on it. -/
def hideCard (card : AnimatedElement) : AnimatedElement :=
  { classList :=
      classAdd (classRemove card.classList "cert-animate-in") "cert-animate-out",
    animationEnd := card.animationEnd + 1 }

/-- The click handler `handleToggle` of `bindToggle`; `offsetHeight` is the value
read from `gallery.offsetHeight` at the start and `scrollHeight` the value read
from `gallery.scrollHeight` after the loop over the extras. -/
def CertificateGallery.handleToggle (s : CertificateGallery)
    (offsetHeight scrollHeight : Nat) : CertificateGallery :=
  let isHidden := firstExtraHidden s.extras
  let s1 := if !s.isExpanded then { s with collapsedHeight := offsetHeight } else s
  let s2 := { s1 with extras := s1.extras.map (if isHidden then showCard else hideCard) }
  let s3 :=
    if isHidden then
      let a := { s2 with expandedHeight := scrollHeight }
      let b := { a with maxHeight := MaxHeight.px a.collapsedHeight }
      let c := { b with maxHeight := MaxHeight.px b.expandedHeight }
      { c with isExpanded := true }
    else
      let b := { s2 with maxHeight := MaxHeight.px s2.expandedHeight }
      let c := { b with maxHeight := MaxHeight.px b.collapsedHeight }
      { c with isExpanded := false }
  let s4 := { s3 with toggleText := if isHidden then "Show fewer" else "View more" }
  { s4 with
    wrapperClasses :=
      classAdd (classRemove s4.wrapperClasses "cert-toggle-animate") "cert-toggle-animate" }

/-- The method `CertificateGallery.handleTransitionEnd`; `targetIsGallery` says
whether `event.target` is the gallery container. -/
def CertificateGallery.handleTransitionEnd (s : CertificateGallery)
    (targetIsGallery : Bool) (propertyName : String) : CertificateGallery :=
  if !targetIsGallery || propertyName ≠ "max-height" then s
  else { s with maxHeight := MaxHeight.unset }

/-- One run of a `handleEnd` listener registered on an extra card. -/
def cardHandleEnd (card : AnimatedElement) : AnimatedElement :=
  { classList := classRemove (classAdd card.classList "hidden") "cert-animate-out",
    animationEnd := card.animationEnd - 1 }

/-- The `animationend` event dispatched on an extra card: every registered
`handleEnd` listener runs once. -/
def cardAnimationEnd (card : AnimatedElement) : AnimatedElement :=
  Nat.iterate cardHandleEnd card.animationEnd card

/-- The `animationend` event dispatched on the extra card of index `i`. -/
def CertificateGallery.extraAnimationEnd (s : CertificateGallery) (i : Nat) :
    CertificateGallery :=
  { s with extras := List.modify cardAnimationEnd i s.extras }

/-- The exit animations of all extra cards complete: `animationend` is dispatched
on each of them. -/
def CertificateGallery.extrasAnimationEnd (s : CertificateGallery) : CertificateGallery :=
  (List.range s.extras.length).foldl CertificateGallery.extraAnimationEnd s

/-- The method `CertificateGallery.openModal`; `src` is `none` for `null`. -/
def CertificateGallery.openModal (s : CertificateGallery) (src : Option String)
    (title : String) : CertificateGallery :=
  match s.modal, s.modalImage, src with
  | some m, some _, some url =>
    if url = "" then s
    else
      { s with
        modalImage := some { src := url,
                             alt := if title ≠ "" then title else "Certificate preview" },
        modalCaption := s.modalCaption.map (fun _ => title),
        modal := some m.show }
  | _, _, _ => s

/-- The click listener `bindCards` registers on a card. -/
def CertificateGallery.cardClick (s : CertificateGallery) (card : CertCard) :
    CertificateGallery :=
  s.openModal card.dataSrc (card.dataTitle.getD "")

/-- The method `CertificateGallery.closeModal`. -/
def CertificateGallery.closeModal (s : CertificateGallery) : CertificateGallery :=
  match s.modal with
  | none => s
  | some m => { s with modal := some m.close }

/-- The `animationend` event dispatched on the lightbox's inner element. -/
def CertificateGallery.modalAnimationEnd (s : CertificateGallery) : CertificateGallery :=
  { s with modal := s.modal.map Modal.animationEnd }

/-- An event the gallery container reacts to: a click on the toggle wrapper with
the two heights the handler reads, an `animationend` on the extra card of index
`i`, or a `transitionend` reaching the container. -/
inductive GalleryEvent where
  | toggle (offsetHeight scrollHeight : Nat)
  | animationEnd (i : Nat)
  | transitionEnd (targetIsGallery : Bool) (propertyName : String)
  deriving DecidableEq, Repr

/-- The reaction of the gallery to one event. -/
def CertificateGallery.step (s : CertificateGallery) : GalleryEvent → CertificateGallery
  | GalleryEvent.toggle offsetHeight scrollHeight => s.handleToggle offsetHeight scrollHeight
  | GalleryEvent.animationEnd i => s.extraAnimationEnd i
  | GalleryEvent.transitionEnd targetIsGallery propertyName =>
    s.handleTransitionEnd targetIsGallery propertyName

/-- The heights the specification's invariant refers to: the box height measured
at setup or at the start of the most recent toggle made while not expanded, and
the content height measured during the most recent expansion, if there was one. -/
structure Measured where
  collapsed : Nat
  expanded : Option Nat
  deriving DecidableEq, Repr

/-- The measurements after one more event, given the gallery state in which the
event arrives. -/
def Measured.record (m : Measured) (s : CertificateGallery) : GalleryEvent → Measured
  | GalleryEvent.toggle offsetHeight scrollHeight =>
    { collapsed := if s.isExpanded then m.collapsed else offsetHeight,
      expanded := if firstExtraHidden s.extras then some scrollHeight else m.expanded }
  | _ => m

/-- The gallery after a sequence of events, together with the measurements made on
the way. -/
def CertificateGallery.runRecorded :
    CertificateGallery × Measured → List GalleryEvent → CertificateGallery × Measured
  | sm, [] => sm
  | (s, m), e :: rest => CertificateGallery.runRecorded (s.step e, m.record s e) rest

/-! ## ProjectDetailsModal -/

/-- A `[data-project-details]` element: the value of that attribute, its
`data-project-title` attribute and its inner markup. -/
structure Template where
  key : String
  title : Option String
  innerHTML : String
  deriving DecidableEq, Repr

/-- The method `Map.prototype.set`: the value of an existing key is replaced in
place, a new key is appended. -/
def mapSet (m : List (String × Template)) (k : String) (v : Template) :
    List (String × Template) :=
  if m.any (fun e => e.1 == k) then m.map (fun e => if e.1 == k then (k, v) else e)
  else m ++ [(k, v)]

/-- The method `Map.prototype.get` (`undefined` is `none`). -/
def mapGet (m : List (String × Template)) (k : String) : Option Template :=
  (m.find? (fun e => e.1 == k)).map Prod.snd

/-- The fields of a `ProjectDetailsModal`: the `data-project-open` attribute of
every trigger, the template mapping, and the overlay with its title text and body
markup (`null` fields are `none`). -/
structure ProjectDetailsModal where
  triggers : List (Option String)
  details : List (String × Template)
  modal : Option Modal
  modalTitle : Option String
  modalBody : Option String
  deriving DecidableEq, Repr

/-- The constructor of `ProjectDetailsModal` over the document's triggers and
template elements. -/
def ProjectDetailsModal.new (triggers : List (Option String))
    (templates : List Template) : ProjectDetailsModal :=
  { triggers := triggers,
    details := templates.foldl (fun m el => if el.key ≠ "" then mapSet m el.key el else m) [],
    modal := none, modalTitle := none, modalBody := none }

/-- The method `ProjectDetailsModal.createModal`. -/
def ProjectDetailsModal.createModal (s : ProjectDetailsModal) : ProjectDetailsModal :=
  { s with
    modal := some { classList := modalClassName,
                    inner := some { classList := projectInnerClassName, animationEnd := 0 } },
    modalTitle := some "",
    modalBody := some "" }

/-- The method `ProjectDetailsModal.init`. -/
def ProjectDetailsModal.init (s : ProjectDetailsModal) : ProjectDetailsModal :=
  if s.triggers.isEmpty || s.details.isEmpty then s else s.createModal

/-- The expression `template.getAttribute('data-project-title') || 'Project details'`. -/
def templateTitle (template : Template) : String :=
  match template.title with
  | none => "Project details"
  | some t => if t ≠ "" then t else "Project details"

/-- The method `ProjectDetailsModal.open`; `key` is `none` for `null`.  The
assignment `this.modalBody.innerHTML = template.innerHTML` hands the template's
markup to the host, which parses it as a fragment inside the body `div` and
replaces the body's children: `parseFragment markup` is the markup of the children
the body has afterwards. -/
def ProjectDetailsModal.open (s : ProjectDetailsModal) (parseFragment : String → String)
    (key : Option String) : ProjectDetailsModal :=
  match s.modal, s.modalBody, key with
  | some m, some _, some k =>
    if k = "" then s
    else
      match mapGet s.details k with
      | none => s
      | some template =>
        { s with
          modalTitle := s.modalTitle.map (fun _ => templateTitle template),
          modalBody := some (parseFragment template.innerHTML),
          modal := some m.show }
  | _, _, _ => s

/-- The method `ProjectDetailsModal.close`. -/
def ProjectDetailsModal.close (s : ProjectDetailsModal) : ProjectDetailsModal :=
  match s.modal with
  | none => s
  | some m => { s with modal := some m.close }

/-- The `animationend` event dispatched on the details overlay's inner element. -/
def ProjectDetailsModal.modalAnimationEnd (s : ProjectDetailsModal) : ProjectDetailsModal :=
  { s with modal := s.modal.map Modal.animationEnd }

/-! ## The page: both overlays and the global key listeners -/

/-- The two components that own an overlay. -/
structure Page where
  certificateGallery : CertificateGallery
  projectDetailsModal : ProjectDetailsModal
  deriving DecidableEq, Repr

/-- A `keydown` event on the document: the listener of each `createModal` runs. -/
def Page.keydown (p : Page) (key : String) : Page :=
  { certificateGallery :=
      if key = "Escape" then p.certificateGallery.closeModal else p.certificateGallery,
    projectDetailsModal :=
      if key = "Escape" then p.projectDetailsModal.close else p.projectDetailsModal }

/-- The exit animations of both overlays complete. -/
def Page.animationEnd (p : Page) : Page :=
  { certificateGallery := p.certificateGallery.modalAnimationEnd,
    projectDetailsModal := p.projectDetailsModal.modalAnimationEnd }

/-- The page after `PortfolioApp.init` over a gallery with one card and one hidden
extra item, and one trigger and one template for the details overlay. -/
def samplePage : Page :=
  { certificateGallery :=
      (CertificateGallery.new [] MaxHeight.unset
        [{ classList := ["cert-extra", "hidden"], animationEnd := 0 }]
        "View more" [] [{ dataSrc := some "cert.png", dataTitle := some "Cert" }]).init 200,
    projectDetailsModal :=
      (ProjectDetailsModal.new [some "alpha"]
        [{ key := "alpha", title := some "Alpha", innerHTML := "<p>alpha</p>" }]).init }

/-- A host fragment parser at the markup of the examples: inside a `div` the HTML
parser ignores the tags `tbody`, `tr` and `td`, so the inner markup of a `table`
template with one cell parses to the cell's text; the other markup of the examples
parses to itself. -/
def sampleFragmentParser (markup : String) : String :=
  if markup = "<tbody><tr><td>cell</td></tr></tbody>" then "cell" else markup

/-- The details overlay after setup on a page with one trigger and one template
that is a `table` element, `<table data-project-details="grid">`, with one cell. -/
def sampleTableDetails : ProjectDetailsModal :=
  (ProjectDetailsModal.new [some "grid"]
    [{ key := "grid", title := none,
       innerHTML := "<tbody><tr><td>cell</td></tr></tbody>" }]).init

/-! ## Theorems -/

theorem classContains_remove_self (c : List String) (t : String) :
    classContains (classRemove c t) t = false := by
  simp [classContains, classRemove]

theorem classContains_add_self (c : List String) (t : String) :
    classContains (classAdd c t) t = true := by
  unfold classContains classAdd
  split <;> simp_all

theorem scrollPosition_eq (w : Window) : scrollPosition w = w.scrollY := by
  unfold scrollPosition jsOr Window.pageYOffset Window.scrollTop
  split <;> simp_all

theorem sectionStep_eq (w : Window) (cur : Option String) (s : Section) :
    sectionStep w cur s =
      if adjustedOffset s ≤ w.scrollY then some s.id else cur := by
  unfold sectionStep rectTop adjustedOffset
  simp only [scrollPosition_eq]
  have h : (w.scrollY ≥ s.top - w.scrollY + w.scrollY - 120) ↔ (s.top - 120 ≤ w.scrollY) := by
    constructor <;> intro h <;> omega
  by_cases hq : s.top - 120 ≤ w.scrollY
  · rw [if_pos (h.mpr hq), if_pos hq]
  · rw [if_neg (fun x => hq (h.mp x)), if_neg hq]

theorem foldl_sectionStep (w : Window) (sections : List Section) (cur : Option String) :
    sections.foldl (sectionStep w) cur =
      match lastQualifying w.scrollY sections with
      | some s => some s.id
      | none => cur := by
  induction sections generalizing cur with
  | nil => simp [lastQualifying]
  | cons s rest ih =>
    rw [List.foldl_cons, ih, sectionStep_eq]
    unfold lastQualifying
    by_cases hq : adjustedOffset s ≤ w.scrollY
    · simp only [List.filter_cons, hq, decide_True, if_true]
      cases hrest : List.filter (fun s => decide (adjustedOffset s ≤ w.scrollY)) rest with
      | nil => simp
      | cons a as =>
        rw [List.getLast?_cons_cons, List.getLast?_eq_getLast _ (List.cons_ne_nil a as)]
    · simp [List.filter_cons, hq]

theorem highlightLink_active (cur : Option String) (l : NavLink) :
    isActive (highlightLink cur l) = linkMatches cur l.href := by
  unfold highlightLink isActive
  split
  · rename_i h; simp [classContains_add_self, h]
  · rename_i h; simp [classContains_remove_self, h]

theorem highlightLink_href (cur : Option String) (l : NavLink) :
    (highlightLink cur l).href = l.href := by
  unfold highlightLink
  split <;> rfl

theorem activeCount_handleScroll (w : Window) (sections : List Section)
    (links : List NavLink) :
    activeCount (handleScroll w sections links) =
      (links.filter (fun l => linkMatches (currentId w sections) l.href)).length := by
  unfold activeCount handleScroll
  induction links with
  | nil => rfl
  | cons l rest ih =>
    simp only [List.map_cons, List.filter_cons, highlightLink_active]
    split <;> simp [ih]

theorem filter_href_length_le_one (x : Option String) (links : List NavLink)
    (hnodup : (links.map NavLink.href).Nodup) :
    (links.filter (fun l => decide (l.href = x))).length ≤ 1 := by
  induction links with
  | nil => simp
  | cons l rest ih =>
    rw [List.map_cons, List.nodup_cons] at hnodup
    by_cases h : l.href = x
    · have hnone : rest.filter (fun l => decide (l.href = x)) = [] := by
        rw [List.filter_eq_nil_iff]
        intro a ha hax
        apply hnodup.1
        rw [List.mem_map]
        exact ⟨a, ha, by rw [h]; exact of_decide_eq_true hax⟩
      simp [List.filter_cons, h, hnone]
    · simp only [List.filter_cons, h, decide_False]
      exact ih hnodup.2

/-- C1: in `NavigationHighlighter.handleScroll`, for every list of sections in
document order and every scroll position, the current id is the id of the last
section whose adjusted offset (document top offset minus 120) is at most the scroll
position; when no section qualifies, no link carries the active marker after the
pass; with adjusted offsets 0, 500, 1200 and scroll position 700 the current
section is the one at adjusted offset 500. -/
theorem handleScroll_current_is_last_qualifying (w : Window) (sections : List Section)
    (links : List NavLink) :
    currentId w sections =
        (lastQualifying (scrollPosition w) sections).map Section.id ∧
      ((∀ s ∈ sections, ¬ adjustedOffset s ≤ scrollPosition w) →
        ∀ l ∈ handleScroll w sections links, isActive l = false) ∧
      (adjustedOffset ⟨"about", 120⟩ = 0 ∧ adjustedOffset ⟨"work", 620⟩ = 500 ∧
        adjustedOffset ⟨"contact", 1320⟩ = 1200 ∧
        currentId ⟨700⟩ [⟨"about", 120⟩, ⟨"work", 620⟩, ⟨"contact", 1320⟩] =
          some "work") := by
  have hcur : currentId w sections =
      (lastQualifying (scrollPosition w) sections).map Section.id := by
    unfold currentId
    rw [foldl_sectionStep, scrollPosition_eq]
    cases lastQualifying w.scrollY sections <;> rfl
  refine ⟨hcur, ?_, ?_⟩
  · intro hnone l hl
    have hq : lastQualifying (scrollPosition w) sections = none := by
      unfold lastQualifying
      rw [List.getLast?_eq_none_iff, List.filter_eq_nil_iff]
      intro s hs
      simpa using hnone s hs
    unfold handleScroll at hl
    rw [List.mem_map] at hl
    obtain ⟨l0, _, rfl⟩ := hl
    rw [highlightLink_active, hcur, hq]
    rfl
  · exact ⟨by decide, by decide, by decide, by decide⟩

/-- C2 (as stated, refuted): with two links of the same `href`, one pass of
`handleScroll` leaves two links with the active marker. -/
theorem handleScroll_two_links_active :
    activeCount
        (handleScroll ⟨0⟩ [⟨"about", 0⟩]
          [⟨some "#about", []⟩, ⟨some "#about", ["nav-link-active"]⟩]) = 2 ∧
      ¬ activeCount
        (handleScroll ⟨0⟩ [⟨"about", 0⟩]
          [⟨some "#about", []⟩, ⟨some "#about", ["nav-link-active"]⟩]) ≤ 1 := by
  decide

/-- C2 (amended): after one pass of `handleScroll`, whatever the scroll position,
the sections, the links and their prior markers, the links are the same links in
the same order with their `href`s untouched, and a link of the result carries the
active marker if and only if the current id is a non-empty string and the link's
`href` is `#` followed by it; so the number of marked links is the number of links
with that `href`, and when no two links have the same `href`, at most one link
carries the marker. -/
theorem handleScroll_marker_exclusive (w : Window) (sections : List Section)
    (links : List NavLink) :
    (handleScroll w sections links).map NavLink.href = links.map NavLink.href ∧
      (∀ l ∈ handleScroll w sections links, isActive l = true ↔
        ∃ id, currentId w sections = some id ∧ id ≠ "" ∧ l.href = some ("#" ++ id)) ∧
      (handleScroll w sections links).map isActive =
        links.map (fun l => linkMatches (currentId w sections) l.href) ∧
      activeCount (handleScroll w sections links) =
        (links.filter (fun l => linkMatches (currentId w sections) l.href)).length ∧
      ((links.map NavLink.href).Nodup →
        activeCount (handleScroll w sections links) ≤ 1) := by
  have hiff : ∀ l : NavLink, isActive (highlightLink (currentId w sections) l) = true ↔
      ∃ id, currentId w sections = some id ∧ id ≠ "" ∧ l.href = some ("#" ++ id) := by
    intro l
    rw [highlightLink_active]
    cases hc : currentId w sections with
    | none => simp [linkMatches]
    | some id => simp [linkMatches]
  refine ⟨?_, ?_, ?_, activeCount_handleScroll w sections links, ?_⟩
  · unfold handleScroll
    rw [List.map_map]
    apply List.map_congr_left
    intro l _
    exact highlightLink_href _ l
  · intro l hl
    unfold handleScroll at hl
    rw [List.mem_map] at hl
    obtain ⟨l0, _, rfl⟩ := hl
    rw [highlightLink_href]
    exact hiff l0
  · unfold handleScroll
    rw [List.map_map]
    apply List.map_congr_left
    intro l _
    exact highlightLink_active _ l
  · intro hnodup
    rw [activeCount_handleScroll]
    cases hc : currentId w sections with
    | none => simp [linkMatches]
    | some id =>
      by_cases hid : id = ""
      · simp [linkMatches, hid]
      · have := filter_href_length_le_one (some ("#" ++ id)) links hnodup
        simpa [linkMatches, hid] using this

/-- C2 (amended), instance: two links with distinct `href`s, the first one marked
before the pass; after it the link to the current section is the one marked. -/
theorem handleScroll_marker_exclusive_witness :
    activeCount
        (handleScroll ⟨700⟩ [⟨"about", 120⟩, ⟨"work", 620⟩]
          [⟨some "#about", ["nav-link-active"]⟩, ⟨some "#work", []⟩]) ≤ 1 ∧
      (handleScroll ⟨700⟩ [⟨"about", 120⟩, ⟨"work", 620⟩]
          [⟨some "#about", ["nav-link-active"]⟩, ⟨some "#work", []⟩]).map isActive =
        [false, true] :=
  have h := handleScroll_marker_exclusive ⟨700⟩ [⟨"about", 120⟩, ⟨"work", 620⟩]
    [⟨some "#about", ["nav-link-active"]⟩, ⟨some "#work", []⟩]
  ⟨h.2.2.2.2 (by decide), h.2.2.1.trans (by decide)⟩

theorem classContains_add_of_ne (c : List String) (t u : String) (h : u ≠ t) :
    classContains (classAdd c t) u = classContains c u := by
  unfold classContains classAdd
  split
  · rfl
  · simp [h]

theorem classContains_remove_of_ne (c : List String) (t u : String) (h : u ≠ t) :
    classContains (classRemove c t) u = classContains c u := by
  simp [classContains, classRemove, h]

theorem splitAux_filter (cs : List Char) :
    (∀ cur, (splitAux cs (some cur)).filter (fun piece => decide (piece ≠ [])) =
        (List.splitOnP.go isJsSpace cs cur).filter (fun piece => decide (piece ≠ []))) ∧
      (splitAux cs none).filter (fun piece => decide (piece ≠ [])) =
        (List.splitOnP.go isJsSpace cs []).filter (fun piece => decide (piece ≠ [])) := by
  induction cs with
  | nil =>
    refine ⟨fun cur => ?_, ?_⟩
    · simp [splitAux, List.splitOnP.go]
    · simp [splitAux, List.splitOnP.go]
  | cons c cs ih =>
    refine ⟨fun cur => ?_, ?_⟩
    · by_cases hc : isJsSpace c = true
      · simp only [splitAux, List.splitOnP.go, hc, if_true, List.filter_cons, ih.2]
      · have hf : isJsSpace c = false := Bool.eq_false_iff.mpr hc
        simp only [splitAux, List.splitOnP.go, hf, Bool.false_eq_true, if_false]
        exact ih.1 _
    · by_cases hc : isJsSpace c = true
      · simp only [splitAux, List.splitOnP.go, hc, if_true, List.filter_cons, ih.2]
        simp
      · have hf : isJsSpace c = false := Bool.eq_false_iff.mpr hc
        simp only [splitAux, List.splitOnP.go, hf, Bool.false_eq_true, if_false]
        exact ih.1 _

theorem mem_tagList_iff (s n : String) :
    n ∈ tagList s ↔ ∃ tag ∈ jsSplitSpaces s, tag ≠ "" ∧ tag = n := by
  unfold tagList jsSplitSpaces List.splitOnP
  rw [← (splitAux_filter s.data).1 []]
  simp only [List.mem_map, List.mem_filter, decide_eq_true_eq]
  constructor
  · rintro ⟨piece, ⟨hmem, hne⟩, rfl⟩
    refine ⟨String.mk piece, ⟨piece, hmem, rfl⟩, ?_, rfl⟩
    intro h
    apply hne
    have := congrArg String.data h
    simpa using this
  · rintro ⟨tag, ⟨piece, hmem, rfl⟩, hne, rfl⟩
    refine ⟨piece, ⟨hmem, ?_⟩, rfl⟩
    intro h
    apply hne
    rw [h]

theorem tagsAttribute_eq (card : ProjectCard) : tagsAttribute card = card.tags.getD "" := by
  unfold tagsAttribute
  cases card.tags with
  | none => rfl
  | some t =>
    by_cases h : t = ""
    · simp [h]
    · simp [h]

theorem isMatch_iff (toLowerCase : String → String) (filter : String) (card : ProjectCard) :
    isMatch toLowerCase filter card = true ↔
      toLowerCase filter = "all" ∨
        toLowerCase filter ∈ tagList (toLowerCase (card.tags.getD "")) := by
  unfold isMatch
  simp only [Bool.or_eq_true, decide_eq_true_eq, List.any_eq_true, Bool.and_eq_true,
    mem_tagList_iff, tagsAttribute_eq]

theorem applyFilterCard_isHidden (toLowerCase : String → String) (filter : String)
    (card : ProjectCard) :
    (applyFilterCard toLowerCase filter card).isHidden =
      !isMatch toLowerCase filter card := by
  unfold applyFilterCard ProjectCard.isHidden
  cases h : isMatch toLowerCase filter card with
  | true =>
    simp only [if_true, Bool.not_true]
    rw [classContains_add_of_ne _ _ _ (by decide), classContains_remove_self]
  | false =>
    simp only [Bool.false_eq_true, if_false, Bool.not_false]
    exact classContains_add_self _ _

/-- C3: after `ProjectFilter.applyFilter`, for every filter value and every card,
whatever the card's prior class list, the card is unhidden if and only if the
lower-cased filter is `all` or the card's lower-cased, white-space-separated tag
list contains a tag equal to the lower-cased filter, and hidden otherwise; filter
`design` over the cards tagged `design web`, `mobile`, `design` shows cards 1 and
3 and hides card 2, and filter `all` shows all three. -/
theorem applyFilter_unhidden_iff (toLowerCase : String → String) (filter : String)
    (cards : List ProjectCard) :
    (applyFilter toLowerCase filter cards).length = cards.length ∧
      (∀ card ∈ cards,
        ((applyFilterCard toLowerCase filter card).isHidden = false ↔
          (toLowerCase filter = "all" ∨
            toLowerCase filter ∈ tagList (toLowerCase (card.tags.getD "")))) ∧
        ((applyFilterCard toLowerCase filter card).isHidden = true ↔
          ¬ (toLowerCase filter = "all" ∨
            toLowerCase filter ∈ tagList (toLowerCase (card.tags.getD ""))))) ∧
      (applyFilter asciiLower "design"
          [⟨some "design web", ["hidden"]⟩, ⟨some "mobile", []⟩,
            ⟨some "design", ["hidden"]⟩]).map ProjectCard.isHidden =
        [false, true, false] ∧
      (applyFilter asciiLower "all"
          [⟨some "design web", ["hidden"]⟩, ⟨some "mobile", ["hidden"]⟩,
            ⟨some "design", []⟩]).map ProjectCard.isHidden =
        [false, false, false] := by
  refine ⟨by simp [applyFilter], ?_, by decide, by decide⟩
  intro card _
  rw [applyFilterCard_isHidden, ← isMatch_iff]
  cases isMatch toLowerCase filter card <;> simp

theorem Modal.show_isShown (m : Modal) : m.show.isShown = true := by
  unfold Modal.show Modal.isShown
  simp only [Bool.not_eq_true']
  rw [classContains_add_of_ne _ _ _ (by decide), classContains_remove_self]

theorem Modal.handleEnd_inner_isSome (m : Modal) (h : m.inner.isSome = true) :
    m.handleEnd.inner.isSome = true := by
  unfold Modal.handleEnd
  cases hi : m.inner with
  | none => rw [hi] at h; cases h
  | some inner => rfl

theorem Modal.iterate_handleEnd_inner_isSome (k : Nat) (m : Modal)
    (h : m.inner.isSome = true) : (Nat.iterate Modal.handleEnd k m).inner.isSome = true := by
  induction k generalizing m with
  | zero => exact h
  | succ k ih => exact ih _ (Modal.handleEnd_inner_isSome m h)

theorem Modal.handleEnd_hidden (m : Modal) (h : m.inner.isSome = true) :
    m.handleEnd.isShown = false := by
  unfold Modal.handleEnd Modal.isShown
  cases hi : m.inner with
  | none => rw [hi] at h; cases h
  | some inner =>
    simp only [Bool.not_eq_false']
    rw [classContains_remove_of_ne _ _ _ (by decide), classContains_add_self]

theorem Modal.iterate_succ_handleEnd_hidden (k : Nat) (m : Modal)
    (h : m.inner.isSome = true) :
    (Nat.iterate Modal.handleEnd (k + 1) m).isShown = false := by
  rw [Function.iterate_succ_apply']
  exact Modal.handleEnd_hidden _ (Modal.iterate_handleEnd_inner_isSome k m h)

/-- Closing an overlay that has an inner element and then delivering the
completion of the animation leaves the overlay hidden, whether or not it was
re-opened in between. -/
theorem Modal.close_animationEnd_hidden (m : Modal) (inner : AnimatedElement)
    (h : m.inner = some inner) :
    m.close.animationEnd.isShown = false ∧ m.close.show.animationEnd.isShown = false := by
  constructor
  · unfold Modal.animationEnd
    have hc : m.close.inner = some
        { classList :=
            classAdd (classRemove inner.classList "modal-animate-in") "modal-animate-out",
          animationEnd := inner.animationEnd + 1 } := by
      unfold Modal.close
      rw [h]
    rw [hc]
    exact Modal.iterate_succ_handleEnd_hidden _ _ (by rw [hc]; rfl)
  · unfold Modal.animationEnd
    have hc : m.close.show.inner = some
        { classList :=
            classAdd
              (classRemove
                (classRemove
                  (classAdd (classRemove inner.classList "modal-animate-in")
                    "modal-animate-out")
                  "modal-animate-in")
                "modal-animate-out")
              "modal-animate-in",
          animationEnd := inner.animationEnd + 1 } := by
      unfold Modal.close Modal.show
      rw [h]
      rfl
    rw [hc]
    exact Modal.iterate_succ_handleEnd_hidden _ _ (by rw [hc]; rfl)

theorem mapSet_keys_ne (m : List (String × Template)) (k : String) (v : Template)
    (hk : k ≠ "") (hm : ∀ e ∈ m, e.1 ≠ "") : ∀ e ∈ mapSet m k v, e.1 ≠ "" := by
  unfold mapSet
  split
  · intro e he
    rw [List.mem_map] at he
    obtain ⟨e0, he0, rfl⟩ := he
    split
    · exact hk
    · exact hm e0 he0
  · intro e he
    rw [List.mem_append, List.mem_singleton] at he
    rcases he with he | rfl
    · exact hm e he
    · exact hk

theorem foldl_mapSet_keys_ne (templates : List Template) (m : List (String × Template))
    (hm : ∀ e ∈ m, e.1 ≠ "") :
    ∀ e ∈ templates.foldl (fun m el => if el.key ≠ "" then mapSet m el.key el else m) m,
      e.1 ≠ "" := by
  induction templates generalizing m with
  | nil => exact hm
  | cons el rest ih =>
    rw [List.foldl_cons]
    apply ih
    by_cases hk : el.key = ""
    · simpa [hk] using hm
    · simpa [hk] using mapSet_keys_ne m el.key el hk hm

theorem mapGet_empty_key (triggers : List (Option String)) (templates : List Template) :
    mapGet (ProjectDetailsModal.new triggers templates).details "" = none := by
  unfold mapGet
  rw [Option.map_eq_none', List.find?_eq_none]
  intro e he
  have := foldl_mapSet_keys_ne templates [] (by simp) e he
  simpa using this

/-- C5 (as stated, refuted): on a page whose template is a `table` element, `open`
with the template's key does not leave the template's inner markup in the overlay
body: the host parses the assigned markup inside the body `div` and the body holds
the cell's text only. -/
theorem open_table_template_body_not_verbatim :
    mapGet sampleTableDetails.details "grid" =
        some { key := "grid", title := none,
               innerHTML := "<tbody><tr><td>cell</td></tr></tbody>" } ∧
      (sampleTableDetails.open sampleFragmentParser (some "grid")).modalBody =
        some "cell" ∧
      (sampleTableDetails.open sampleFragmentParser (some "grid")).modalBody ≠
        some "<tbody><tr><td>cell</td></tr></tbody>" := by
  decide

/-- C5 (amended): after setup of the details overlay (the overlay, its title and its
body exist, and the mapping is the one the constructor built), on every host,
`open` with `null`, with the empty key or with any key absent from the template
mapping leaves the whole component unchanged, in particular the overlay's
visibility, title and body; for every key present, `open` sets the body to what
the host's fragment parser makes of that template's inner markup inside the body
element, which is the inner markup itself whenever that markup parses to itself
there, sets the title to the template's title attribute, or to `Project details`
when the attribute is absent or empty, and shows the overlay. -/
theorem open_absent_key_unchanged_present_key_loaded (s : ProjectDetailsModal)
    (parseFragment : String → String)
    (triggers : List (Option String)) (templates : List Template)
    (m : Modal) (title body : String)
    (hd : s.details = (ProjectDetailsModal.new triggers templates).details)
    (hm : s.modal = some m) (ht : s.modalTitle = some title)
    (hb : s.modalBody = some body) :
    s.open parseFragment none = s ∧
      (∀ k, mapGet s.details k = none → s.open parseFragment (some k) = s) ∧
      (∀ k template, mapGet s.details k = some template →
        (s.open parseFragment (some k)).modalBody =
          some (parseFragment template.innerHTML) ∧
        (parseFragment template.innerHTML = template.innerHTML →
          (s.open parseFragment (some k)).modalBody = some template.innerHTML) ∧
        ((template.title = none ∨ template.title = some "") →
          (s.open parseFragment (some k)).modalTitle = some "Project details") ∧
        (∀ t, template.title = some t → t ≠ "" →
          (s.open parseFragment (some k)).modalTitle = some t) ∧
        (s.open parseFragment (some k)).modal.map Modal.isShown = some true ∧
        (s.open parseFragment (some k)).details = s.details) := by
  refine ⟨?_, ?_, ?_⟩
  · unfold ProjectDetailsModal.open
    rw [hm, hb]
  · intro k hk
    unfold ProjectDetailsModal.open
    rw [hm, hb]
    simp only [hk]
    split <;> rfl
  · intro k template hk
    have hne : k ≠ "" := by
      intro h0
      rw [h0, hd, mapGet_empty_key] at hk
      cases hk
    have hopen : s.open parseFragment (some k) =
        { s with
          modalTitle := s.modalTitle.map (fun _ => templateTitle template),
          modalBody := some (parseFragment template.innerHTML),
          modal := some m.show } := by
      unfold ProjectDetailsModal.open
      rw [hm, hb]
      simp only [hk, hne, if_false]
    rw [hopen]
    refine ⟨rfl, ?_, ?_, ?_, ?_, rfl⟩
    · intro hfix
      simp only [hfix]
    · intro h
      simp only [ht, Option.map_some']
      unfold templateTitle
      rcases h with h | h
      · rw [h]
      · rw [h]; rfl
    · intro t h1 h2
      simp only [ht, Option.map_some']
      unfold templateTitle
      rw [h1]
      simp [h2]
    · simp [Modal.show_isShown]

/-- C5 (amended), instance: the sample page's details overlay, hidden after setup,
opened with the key `alpha`, whose markup parses to itself, and with the unknown
key `beta`. -/
theorem open_absent_key_unchanged_present_key_loaded_witness :
    samplePage.projectDetailsModal.open sampleFragmentParser (some "beta") =
        samplePage.projectDetailsModal ∧
      (samplePage.projectDetailsModal.open sampleFragmentParser (some "alpha")).modalBody =
        some "<p>alpha</p>" :=
  have h := open_absent_key_unchanged_present_key_loaded samplePage.projectDetailsModal
    sampleFragmentParser
    [some "alpha"] [{ key := "alpha", title := some "Alpha", innerHTML := "<p>alpha</p>" }]
    { classList := modalClassName,
      inner := some { classList := projectInnerClassName, animationEnd := 0 } }
    "" "" (by decide) (by decide) (by decide) (by decide)
  ⟨h.2.1 "beta" (by decide),
    (h.2.2 "alpha" { key := "alpha", title := some "Alpha", innerHTML := "<p>alpha</p>" }
      (by decide)).2.1 (by decide)⟩

/-- C6: after setup of the lightbox (the overlay, its image and its caption exist),
for every non-empty source URL and every title, `openModal` sets the image source
to the URL and the caption text to the title and shows the overlay; with a missing
or empty URL `openModal` returns the component unchanged (image, caption,
visibility and animation markers), also when called from a card's click listener. -/
theorem openModal_sets_image_caption_or_noop (s : CertificateGallery) (m : Modal)
    (image : Image) (caption : String) (title : String)
    (hm : s.modal = some m) (hi : s.modalImage = some image)
    (hc : s.modalCaption = some caption) :
    (∀ src, src ≠ "" →
        (s.openModal (some src) title).modalImage.map Image.src = some src ∧
        (s.openModal (some src) title).modalCaption = some title ∧
        (s.openModal (some src) title).modal.map Modal.isShown = some true) ∧
      s.openModal none title = s ∧
      s.openModal (some "") title = s ∧
      (∀ card : CertCard, card.dataSrc = none ∨ card.dataSrc = some "" →
        s.cardClick card = s) := by
  have hnone : ∀ t, s.openModal none t = s := by
    intro t
    unfold CertificateGallery.openModal
    rw [hm, hi]
  have hempty : ∀ t, s.openModal (some "") t = s := by
    intro t
    unfold CertificateGallery.openModal
    rw [hm, hi]
    simp
  refine ⟨?_, hnone title, hempty title, ?_⟩
  · intro src hsrc
    have hopen : s.openModal (some src) title =
        { s with
          modalImage := some { src := src,
                               alt := if title ≠ "" then title else "Certificate preview" },
          modalCaption := s.modalCaption.map (fun _ => title),
          modal := some m.show } := by
      unfold CertificateGallery.openModal
      rw [hm, hi]
      simp only [hsrc, if_false]
    rw [hopen]
    refine ⟨rfl, ?_, ?_⟩
    · simp [hc]
    · simp [Modal.show_isShown]
  · intro card hcard
    unfold CertificateGallery.cardClick
    rcases hcard with h | h <;> rw [h]
    · exact hnone _
    · exact hempty _

/-- C6, instance: the sample page's lightbox, hidden after setup. -/
theorem openModal_sets_image_caption_or_noop_witness :
    (samplePage.certificateGallery.openModal (some "cert.png") "Cert").modalImage.map
        Image.src = some "cert.png" ∧
      samplePage.certificateGallery.openModal none "Cert" = samplePage.certificateGallery :=
  have h := openModal_sets_image_caption_or_noop samplePage.certificateGallery
    { classList := modalClassName,
      inner := some { classList := certInnerClassName, animationEnd := 0 } }
    { src := "", alt := "Certificate preview" } "" "Cert"
    (by decide) (by decide) (by decide)
  ⟨(h.1 "cert.png" (by decide)).1, h.2.1⟩

/-- C7 (the code at the failing input): on the sample page after setup neither
overlay is shown and nothing is pending, yet one `Escape` key press changes the
page: each inner element gains the `modal-animate-out` marker and a pending
completion listener, while both overlays stay hidden; when the lightbox is then
opened, the completion of its entry animation hides it again.  With the lightbox
open, `Escape` followed by the completion of the exit animation hides it, as the
claim says. -/
theorem escape_with_no_overlay_open_changes_state :
    samplePage.certificateGallery.modal.map Modal.isShown = some false ∧
      samplePage.projectDetailsModal.modal.map Modal.isShown = some false ∧
      samplePage.certificateGallery.modal.map Modal.pending = some 0 ∧
      samplePage.projectDetailsModal.modal.map Modal.pending = some 0 ∧
      samplePage.keydown "Escape" ≠ samplePage ∧
      (samplePage.keydown "Escape").certificateGallery.modal.map Modal.isShown =
        some false ∧
      (samplePage.keydown "Escape").projectDetailsModal.modal.map Modal.isShown =
        some false ∧
      (samplePage.keydown "Escape").certificateGallery.modal.map Modal.pending = some 1 ∧
      (samplePage.keydown "Escape").projectDetailsModal.modal.map Modal.pending = some 1 ∧
      (samplePage.keydown "Escape").certificateGallery.modal.map
          (fun m => m.inner.map (fun i => classContains i.classList "modal-animate-out")) =
        some (some true) ∧
      samplePage.certificateGallery.modal.map
          (fun m => m.inner.map (fun i => classContains i.classList "modal-animate-out")) =
        some (some false) ∧
      (((samplePage.keydown "Escape").certificateGallery.openModal (some "cert.png")
          "Cert").modalAnimationEnd).modal.map Modal.isShown = some false ∧
      ((({ samplePage with
            certificateGallery :=
              samplePage.certificateGallery.openModal (some "cert.png") "Cert" } :
          Page).keydown "Escape").animationEnd).certificateGallery.modal.map
        Modal.isShown = some false := by
  decide

/-- C9 (the code at the failing input): on the sample page the lightbox is opened,
closed and opened again before the exit animation completes; it is shown after the
second `openModal`, one completion listener is still pending, and the next
`animationend` on the inner element hides the overlay.  The details overlay
behaves the same way, and two calls of `closeModal` in a row leave two listeners
pending. -/
theorem reopened_overlay_hidden_by_stale_completion :
    ((((samplePage.certificateGallery.openModal (some "a.png") "A").closeModal).openModal
        (some "b.png") "B")).modal.map Modal.isShown = some true ∧
      ((((samplePage.certificateGallery.openModal (some "a.png") "A").closeModal).openModal
        (some "b.png") "B")).modal.map Modal.pending = some 1 ∧
      ((((samplePage.certificateGallery.openModal (some "a.png") "A").closeModal).openModal
        (some "b.png") "B").modalAnimationEnd).modal.map Modal.isShown = some false ∧
      ((((samplePage.projectDetailsModal.open sampleFragmentParser (some "alpha")).close).open
        sampleFragmentParser (some "alpha"))).modal.map Modal.isShown = some true ∧
      ((((samplePage.projectDetailsModal.open sampleFragmentParser (some "alpha")).close).open
        sampleFragmentParser (some "alpha")).modalAnimationEnd).modal.map Modal.isShown = some false ∧
      (((samplePage.certificateGallery.openModal (some "a.png") "A").closeModal).closeModal
        ).modal.map Modal.pending = some 2 ∧
      (((samplePage.projectDetailsModal.open sampleFragmentParser (some "alpha")).close).close
        ).modal.map Modal.pending = some 2 := by
  decide

theorem ScrollAnimator.onEntry_revealed (s : ScrollAnimator) (e : Entry) (x : Nat) :
    (s.onEntry e).revealed x =
      (s.revealed x || (e.isIntersecting && decide (e.target = x))) := by
  unfold ScrollAnimator.onEntry ScrollAnimator.revealed
  cases hi : e.isIntersecting with
  | false => simp
  | true =>
    by_cases hx : e.target = x
    · subst hx
      simp [classContains_add_self]
    · have hx2 : x ≠ e.target := fun h => hx h.symm
      simp [Function.update_noteq hx2, hx]

theorem ScrollAnimator.callback_revealed (s : ScrollAnimator) (entries : List Entry)
    (x : Nat) :
    (s.callback entries).revealed x = (s.revealed x || reportsIntersecting entries x) := by
  unfold ScrollAnimator.callback reportsIntersecting
  induction entries generalizing s with
  | nil => simp
  | cons e rest ih =>
    rw [List.foldl_cons, ih, ScrollAnimator.onEntry_revealed, List.any_cons, Bool.or_assoc]

theorem ScrollAnimator.onEntry_not_observed (s : ScrollAnimator) (e : Entry) (x : Nat)
    (h : x ∉ s.observed ∨ (e.isIntersecting = true ∧ e.target = x)) :
    x ∉ (s.onEntry e).observed := by
  unfold ScrollAnimator.onEntry
  cases hi : e.isIntersecting with
  | false =>
    rcases h with h | h
    · simpa using h
    · rw [hi] at h; cases h.1
  | true =>
    simp only [if_true, List.mem_filter, decide_eq_true_eq, not_and, not_not]
    intro hmem
    rcases h with h | h
    · exact absurd hmem h
    · exact h.2.symm

theorem ScrollAnimator.callback_not_observed (s : ScrollAnimator) (entries : List Entry)
    (x : Nat)
    (h : x ∉ s.observed ∨ ∃ e ∈ entries, e.isIntersecting = true ∧ e.target = x) :
    x ∉ (s.callback entries).observed := by
  unfold ScrollAnimator.callback
  induction entries generalizing s with
  | nil =>
    rcases h with h | ⟨e, he, _⟩
    · exact h
    · cases he
  | cons e rest ih =>
    rw [List.foldl_cons]
    apply ih
    rcases h with h | ⟨e0, he0, h0⟩
    · exact Or.inl (ScrollAnimator.onEntry_not_observed s e x (Or.inl h))
    · rw [List.mem_cons] at he0
      rcases he0 with rfl | hmem
      · exact Or.inl (ScrollAnimator.onEntry_not_observed s e0 x (Or.inr h0))
      · exact Or.inr ⟨e0, hmem, h0⟩

theorem ScrollAnimator.run_revealed_mono (s : ScrollAnimator)
    (notifications : List (List Entry)) (x : Nat) (h : s.revealed x = true) :
    (s.run notifications).revealed x = true := by
  unfold ScrollAnimator.run
  induction notifications generalizing s with
  | nil => exact h
  | cons n rest ih =>
    rw [List.foldl_cons]
    apply ih
    rw [ScrollAnimator.callback_revealed, h]
    rfl

theorem ScrollAnimator.revealCount_le (s : ScrollAnimator)
    (notifications : List (List Entry)) (x : Nat) :
    s.revealCount notifications x ≤ if s.revealed x then 0 else 1 := by
  induction notifications generalizing s with
  | nil => simp [ScrollAnimator.revealCount]
  | cons n rest ih =>
    unfold ScrollAnimator.revealCount
    have h1 := ih (s.callback n)
    have h2 := ScrollAnimator.callback_revealed s n x
    cases hs : s.revealed x with
    | true =>
      rw [hs] at h2
      simp only [Bool.true_or] at h2
      rw [h2] at h1
      simpa using h1
    | false =>
      cases hc : (s.callback n).revealed x with
      | true =>
        rw [hc] at h1
        simp only [if_true, Nat.le_zero_eq] at h1
        simp [h1]
      | false =>
        rw [hc] at h1
        simpa using h1

/-- C8: for every state of the `ScrollAnimator`, every sequence of intersection
notifications leading to a state `t` and every further notification: an element
carries `section-visible` after the notification exactly when it carried it before
or the notification reports it as intersecting (so the marker is gained only in a
notification that reports the element as intersecting, and never lost); every
element reported as intersecting is unobserved after that same notification; the
marker survives every later sequence of notifications; and over the whole sequence
each element goes from unrevealed to revealed at most once. -/
theorem scrollAnimator_reveal_once (s : ScrollAnimator)
    (before : List (List Entry)) (entries : List Entry) (after : List (List Entry))
    (x : Nat) :
    (((s.run before).callback entries).revealed x = true ↔
        ((s.run before).revealed x = true ∨
          ∃ e ∈ entries, e.isIntersecting = true ∧ e.target = x)) ∧
      (∀ e ∈ entries, e.isIntersecting = true →
        e.target ∉ ((s.run before).callback entries).observed) ∧
      (((s.run before).callback entries).revealed x = true →
        (((s.run before).callback entries).run after).revealed x = true) ∧
      s.revealCount (before ++ entries :: after) x ≤ 1 := by
  refine ⟨?_, ?_, ?_, ?_⟩
  · rw [ScrollAnimator.callback_revealed]
    simp [reportsIntersecting]
  · intro e he hi
    exact ScrollAnimator.callback_not_observed _ entries e.target (Or.inr ⟨e, he, hi, rfl⟩)
  · exact ScrollAnimator.run_revealed_mono _ after x
  · have h := ScrollAnimator.revealCount_le s (before ++ entries :: after) x
    split at h
    · omega
    · exact h

theorem CertificateGallery.handleToggle_show (s : CertificateGallery)
    (offsetHeight scrollHeight : Nat) (h : firstExtraHidden s.extras = true) :
    s.handleToggle offsetHeight scrollHeight =
      { s with
        collapsedHeight := if s.isExpanded then s.collapsedHeight else offsetHeight,
        extras := s.extras.map showCard,
        expandedHeight := scrollHeight,
        maxHeight := MaxHeight.px scrollHeight,
        isExpanded := true,
        toggleText := "Show fewer",
        wrapperClasses :=
          classAdd (classRemove s.wrapperClasses "cert-toggle-animate")
            "cert-toggle-animate" } := by
  unfold CertificateGallery.handleToggle
  simp only [h, if_true]
  cases s.isExpanded <;> rfl

theorem CertificateGallery.handleToggle_hide (s : CertificateGallery)
    (offsetHeight scrollHeight : Nat) (h : firstExtraHidden s.extras = false) :
    s.handleToggle offsetHeight scrollHeight =
      { s with
        collapsedHeight := if s.isExpanded then s.collapsedHeight else offsetHeight,
        extras := s.extras.map hideCard,
        maxHeight :=
          MaxHeight.px (if s.isExpanded then s.collapsedHeight else offsetHeight),
        isExpanded := false,
        toggleText := "View more",
        wrapperClasses :=
          classAdd (classRemove s.wrapperClasses "cert-toggle-animate")
            "cert-toggle-animate" } := by
  unfold CertificateGallery.handleToggle
  simp only [h, Bool.false_eq_true, if_false]
  cases s.isExpanded <;> rfl

theorem CertificateGallery.handleToggle_pinned (s : CertificateGallery)
    (offsetHeight scrollHeight : Nat) :
    (s.handleToggle offsetHeight scrollHeight).maxHeight =
        MaxHeight.px
          (if (s.handleToggle offsetHeight scrollHeight).isExpanded then
            (s.handleToggle offsetHeight scrollHeight).expandedHeight
          else (s.handleToggle offsetHeight scrollHeight).collapsedHeight) ∧
      (s.handleToggle offsetHeight scrollHeight).isExpanded = firstExtraHidden s.extras ∧
      (s.handleToggle offsetHeight scrollHeight).collapsedHeight =
        (if s.isExpanded then s.collapsedHeight else offsetHeight) ∧
      (s.handleToggle offsetHeight scrollHeight).expandedHeight =
        (if firstExtraHidden s.extras then scrollHeight else s.expandedHeight) := by
  cases h : firstExtraHidden s.extras with
  | true =>
    rw [CertificateGallery.handleToggle_show s _ _ h]
    exact ⟨rfl, rfl, rfl, rfl⟩
  | false =>
    rw [CertificateGallery.handleToggle_hide s _ _ h]
    exact ⟨rfl, rfl, rfl, rfl⟩

theorem CertificateGallery.step_measured (s : CertificateGallery) (m : Measured)
    (e : GalleryEvent)
    (h : s.collapsedHeight = m.collapsed ∧
      (s.isExpanded = true → m.expanded = some s.expandedHeight) ∧
      (∀ x, m.expanded = some x → s.expandedHeight = x)) :
    (s.step e).collapsedHeight = (m.record s e).collapsed ∧
      ((s.step e).isExpanded = true →
        (m.record s e).expanded = some (s.step e).expandedHeight) ∧
      (∀ x, (m.record s e).expanded = some x → (s.step e).expandedHeight = x) := by
  cases e with
  | toggle o sh =>
    obtain ⟨_, h2, h3, h4⟩ := CertificateGallery.handleToggle_pinned s o sh
    simp only [CertificateGallery.step, Measured.record]
    rw [h2, h3, h4, ← h.1]
    refine ⟨rfl, ?_, ?_⟩
    · intro hx
      rw [hx]
      rfl
    · intro x hx
      cases hf : firstExtraHidden s.extras with
      | true =>
        rw [hf] at hx
        simpa using hx
      | false =>
        rw [hf] at hx
        simpa using h.2.2 x hx
  | animationEnd i => exact h
  | transitionEnd t p =>
    simp only [CertificateGallery.step, Measured.record,
      CertificateGallery.handleTransitionEnd]
    split <;> exact h

theorem CertificateGallery.runRecorded_measured (events : List GalleryEvent)
    (s : CertificateGallery) (m : Measured)
    (h : s.collapsedHeight = m.collapsed ∧
      (s.isExpanded = true → m.expanded = some s.expandedHeight) ∧
      (∀ x, m.expanded = some x → s.expandedHeight = x)) :
    (CertificateGallery.runRecorded (s, m) events).1.collapsedHeight =
        (CertificateGallery.runRecorded (s, m) events).2.collapsed ∧
      ((CertificateGallery.runRecorded (s, m) events).1.isExpanded = true →
        (CertificateGallery.runRecorded (s, m) events).2.expanded =
          some (CertificateGallery.runRecorded (s, m) events).1.expandedHeight) ∧
      (∀ x, (CertificateGallery.runRecorded (s, m) events).2.expanded = some x →
        (CertificateGallery.runRecorded (s, m) events).1.expandedHeight = x) := by
  induction events generalizing s m with
  | nil => exact h
  | cons e rest ih =>
    rw [CertificateGallery.runRecorded]
    exact ih _ _ (CertificateGallery.step_measured s m e h)

theorem CertificateGallery.runRecorded_append (events : List GalleryEvent)
    (e : GalleryEvent) (sm : CertificateGallery × Measured) :
    CertificateGallery.runRecorded sm (events ++ [e]) =
      ((CertificateGallery.runRecorded sm events).1.step e,
        (CertificateGallery.runRecorded sm events).2.record
          (CertificateGallery.runRecorded sm events).1 e) := by
  induction events generalizing sm with
  | nil =>
    obtain ⟨s, m⟩ := sm
    rfl
  | cons e0 rest ih =>
    obtain ⟨s, m⟩ := sm
    rw [List.cons_append, CertificateGallery.runRecorded, ih, CertificateGallery.runRecorded]

/-- C10: after `init` on a gallery with at least one card the container's
max-height is pinned to `collapsedHeight` pixels, the box height `init` measured,
and the gallery is not expanded; and after every invocation of the toggle handler,
whatever clicks, animation completions and transition ends came before it, the
max-height is pinned to `expandedHeight` pixels when `isExpanded` is true and to
`collapsedHeight` pixels when it is false, where `collapsedHeight` is the box
height measured at the start of the most recent toggle made while not expanded (at
setup when there was none) and, when expanded, `expandedHeight` is the content
height measured during the most recent expansion. -/
theorem gallery_maxHeight_pinned_after_toggle (galleryClasses : List String)
    (maxHeight : MaxHeight) (extras : List AnimatedElement) (toggleText : String)
    (wrapperClasses : List String) (cards : List CertCard) (initialHeight : Nat)
    (events : List GalleryEvent) (offsetHeight scrollHeight : Nat)
    (hcards : cards ≠ []) :
    (((CertificateGallery.new galleryClasses maxHeight extras toggleText wrapperClasses
          cards).init initialHeight).maxHeight = MaxHeight.px initialHeight ∧
      ((CertificateGallery.new galleryClasses maxHeight extras toggleText wrapperClasses
          cards).init initialHeight).collapsedHeight = initialHeight ∧
      ((CertificateGallery.new galleryClasses maxHeight extras toggleText wrapperClasses
          cards).init initialHeight).isExpanded = false) ∧
      ∀ r, r = CertificateGallery.runRecorded
          ((CertificateGallery.new galleryClasses maxHeight extras toggleText
              wrapperClasses cards).init initialHeight,
            { collapsed := initialHeight, expanded := none })
          (events ++ [GalleryEvent.toggle offsetHeight scrollHeight]) →
        r.1.maxHeight =
            MaxHeight.px (if r.1.isExpanded then r.1.expandedHeight
              else r.1.collapsedHeight) ∧
          r.1.collapsedHeight = r.2.collapsed ∧
          (r.1.isExpanded = true → r.2.expanded = some r.1.expandedHeight) ∧
          (∀ x, r.2.expanded = some x → r.1.expandedHeight = x) := by
  have hinit : (CertificateGallery.new galleryClasses maxHeight extras toggleText
      wrapperClasses cards).init initialHeight =
      ({ (CertificateGallery.new galleryClasses maxHeight extras toggleText
            wrapperClasses cards) with
          galleryClasses := classAdd galleryClasses "cert-gallery-animate",
          collapsedHeight := initialHeight,
          expandedHeight := initialHeight,
          maxHeight := MaxHeight.px initialHeight } : CertificateGallery).createModal := by
    unfold CertificateGallery.init
    cases cards with
    | nil => exact absurd rfl hcards
    | cons c rest => rfl
  refine ⟨by rw [hinit]; exact ⟨rfl, rfl, rfl⟩, ?_⟩
  intro r hr
  have hinv := CertificateGallery.runRecorded_measured
    (events ++ [GalleryEvent.toggle offsetHeight scrollHeight])
    ((CertificateGallery.new galleryClasses maxHeight extras toggleText wrapperClasses
      cards).init initialHeight)
    { collapsed := initialHeight, expanded := none }
    (by
      rw [hinit]
      refine ⟨rfl, ?_, ?_⟩
      · intro h
        cases h
      · intro x h
        cases h)
  rw [← hr] at hinv
  refine ⟨?_, hinv.1, hinv.2.1, hinv.2.2⟩
  rw [hr, CertificateGallery.runRecorded_append]
  exact (CertificateGallery.handleToggle_pinned _ offsetHeight scrollHeight).1

/-- C10, instance: the sample gallery, clicked twice with a transition end in
between. -/
theorem gallery_maxHeight_pinned_after_toggle_witness :
    (CertificateGallery.runRecorded
        ((CertificateGallery.new [] MaxHeight.unset
            [{ classList := ["cert-extra", "hidden"], animationEnd := 0 }] "View more" []
            [{ dataSrc := some "cert.png", dataTitle := some "Cert" }]).init 200,
          { collapsed := 200, expanded := none })
        ([GalleryEvent.toggle 210 480, GalleryEvent.transitionEnd true "max-height"] ++
          [GalleryEvent.toggle 480 480])).1.maxHeight = MaxHeight.px 210 :=
  ((gallery_maxHeight_pinned_after_toggle [] MaxHeight.unset
      [{ classList := ["cert-extra", "hidden"], animationEnd := 0 }] "View more" []
      [{ dataSrc := some "cert.png", dataTitle := some "Cert" }] 200
      [GalleryEvent.toggle 210 480, GalleryEvent.transitionEnd true "max-height"]
      480 480 (by decide)).2 _ rfl).1.trans (by decide)

theorem classRemove_of_not_mem (c : List String) (t : String) (h : t ∉ c) :
    classRemove c t = c := by
  unfold classRemove
  rw [List.filter_eq_self]
  intro x hx
  simp only [decide_eq_true_eq]
  intro hxt
  exact h (hxt ▸ hx)

theorem classAdd_of_not_mem (c : List String) (t : String) (h : t ∉ c) :
    classAdd c t = c ++ [t] := by
  unfold classAdd
  rw [if_neg h]

theorem not_mem_classRemove_self (c : List String) (t : String) : t ∉ classRemove c t := by
  simp [classRemove]

theorem not_mem_classRemove_of_not_mem (c : List String) (t u : String) (h : u ∉ c) :
    u ∉ classRemove c t := by
  unfold classRemove
  intro hu
  exact h (List.mem_filter.mp hu).1

theorem classRemove_append_self (c : List String) (t : String) (h : t ∉ c) :
    classRemove (c ++ [t]) t = c := by
  have h2 := classRemove_of_not_mem c t h
  unfold classRemove at h2 ⊢
  rw [List.filter_append, h2]
  simp

theorem classRemove_append_of_ne (c : List String) (t u : String) (h : u ≠ t) :
    classRemove (c ++ [u]) t = classRemove c t ++ [u] := by
  unfold classRemove
  rw [List.filter_append]
  simp [h]

theorem classContains_eq_false_iff (c : List String) (t : String) :
    classContains c t = false ↔ t ∉ c := by
  simp [classContains]

theorem classContains_eq_true_iff (c : List String) (t : String) :
    classContains c t = true ↔ t ∈ c := by
  simp [classContains]

/-- The class list of a card without the three markers the toggle handler writes. -/
theorem showCard_eq (card : AnimatedElement) :
    ∃ rest : List String,
      "hidden" ∉ rest ∧ "cert-animate-out" ∉ rest ∧ "cert-animate-in" ∉ rest ∧
      showCard card =
        { classList := rest ++ ["cert-animate-in"], animationEnd := card.animationEnd } := by
  refine ⟨classRemove (classRemove (classRemove card.classList "hidden")
    "cert-animate-out") "cert-animate-in", ?_, ?_, ?_, ?_⟩
  · exact not_mem_classRemove_of_not_mem _ _ _
      (not_mem_classRemove_of_not_mem _ _ _ (not_mem_classRemove_self _ _))
  · exact not_mem_classRemove_of_not_mem _ _ _ (not_mem_classRemove_self _ _)
  · exact not_mem_classRemove_self _ _
  · unfold showCard
    rw [classAdd_of_not_mem _ _ (not_mem_classRemove_self _ _)]

theorem card_cycle (rest : List String) (h1 : "hidden" ∉ rest)
    (h2 : "cert-animate-out" ∉ rest) (h3 : "cert-animate-in" ∉ rest) :
    hideCard { classList := rest ++ ["cert-animate-in"], animationEnd := 0 } =
        { classList := rest ++ ["cert-animate-out"], animationEnd := 1 } ∧
      cardAnimationEnd { classList := rest ++ ["cert-animate-out"], animationEnd := 1 } =
        { classList := rest ++ ["hidden"], animationEnd := 0 } ∧
      showCard { classList := rest ++ ["hidden"], animationEnd := 0 } =
        { classList := rest ++ ["cert-animate-in"], animationEnd := 0 } := by
  refine ⟨?_, ?_, ?_⟩
  · unfold hideCard
    simp only [classRemove_append_self rest _ h3, classAdd_of_not_mem rest _ h2, zero_add]
  · unfold cardAnimationEnd
    simp only [Function.iterate_one]
    unfold cardHandleEnd
    have hm : "hidden" ∉ rest ++ ["cert-animate-out"] := by
      simp only [List.mem_append, List.mem_singleton, not_or]
      exact ⟨h1, by decide⟩
    simp only [classAdd_of_not_mem _ _ hm, List.append_assoc]
    rw [← List.append_assoc, classRemove_append_of_ne _ _ _ (by decide),
      classRemove_append_self rest _ h2]
  · unfold showCard
    simp only [classRemove_append_self rest _ h1, classRemove_of_not_mem rest _ h2,
      classRemove_of_not_mem rest _ h3, classAdd_of_not_mem rest _ h3]

theorem getElem?_foldl_modify_range {α : Type} (f : α → α) (l : List α) (k m : Nat) :
    ((List.range k).foldl (fun acc i => List.modify f i acc) l)[m]? =
      if m < k then l[m]?.map f else l[m]? := by
  induction k with
  | zero => simp
  | succ k ih =>
    rw [List.range_succ, List.foldl_append, List.foldl_cons, List.foldl_nil,
      List.getElem?_modify, ih]
    by_cases h1 : m < k
    · have h2 : k ≠ m := by omega
      have h3 : m < k + 1 := by omega
      simp [h1, h2, h3]
    · by_cases h2 : k = m
      · subst h2
        simp
      · have h3 : ¬ m < k + 1 := by omega
        simp [h1, h2, h3]

theorem foldl_modify_range {α : Type} (f : α → α) (l : List α) :
    (List.range l.length).foldl (fun acc i => List.modify f i acc) l = l.map f := by
  apply List.ext_getElem?
  intro m
  rw [getElem?_foldl_modify_range, List.getElem?_map]
  split
  · rfl
  · rename_i h
    rw [List.getElem?_eq_none (Nat.le_of_not_lt h)]
    rfl

theorem CertificateGallery.foldl_extraAnimationEnd (indices : List Nat)
    (s : CertificateGallery) :
    indices.foldl CertificateGallery.extraAnimationEnd s =
      { s with
        extras := indices.foldl (fun acc i => List.modify cardAnimationEnd i acc) s.extras } := by
  induction indices generalizing s with
  | nil => rfl
  | cons i rest ih =>
    rw [List.foldl_cons, ih]
    rfl

theorem CertificateGallery.extrasAnimationEnd_eq (s : CertificateGallery) :
    s.extrasAnimationEnd = { s with extras := s.extras.map cardAnimationEnd } := by
  unfold CertificateGallery.extrasAnimationEnd
  rw [CertificateGallery.foldl_extraAnimationEnd, foldl_modify_range]

theorem classAdd_restart_idem (c : List String) (t : String) :
    classAdd (classRemove (classAdd (classRemove c t) t) t) t =
      classAdd (classRemove c t) t := by
  rw [classAdd_of_not_mem _ _ (not_mem_classRemove_self c t),
    classRemove_append_self _ _ (not_mem_classRemove_self c t),
    classAdd_of_not_mem _ _ (not_mem_classRemove_self c t)]

theorem showCard_not_hidden (card : AnimatedElement) :
    classContains (showCard card).classList "hidden" = false := by
  obtain ⟨rest, h1, _, _, heq⟩ := showCard_eq card
  rw [heq, classContains_eq_false_iff]
  simp only [List.mem_append, List.mem_singleton, not_or]
  exact ⟨h1, by decide⟩

theorem card_round_trip (card : AnimatedElement) (h : card.animationEnd = 0) :
    classContains (hideCard (showCard card)).classList "cert-animate-out" = true ∧
      (hideCard (showCard card)).animationEnd = 1 ∧
      classContains (cardAnimationEnd (hideCard (showCard card))).classList "hidden" = true ∧
      showCard (cardAnimationEnd (hideCard (showCard card))) = showCard card := by
  obtain ⟨rest, h1, h2, h3, heq⟩ := showCard_eq card
  rw [h] at heq
  obtain ⟨c1, c2, c3⟩ := card_cycle rest h1 h2 h3
  rw [heq, c1, c2, c3]
  refine ⟨?_, rfl, ?_, rfl⟩
  · rw [classContains_eq_true_iff]
    simp
  · rw [classContains_eq_true_iff]
    simp

theorem firstExtraHidden_map (f : AnimatedElement → AnimatedElement) (b : Bool)
    (extras : List AnimatedElement) (hne : extras ≠ [])
    (h : ∀ e ∈ extras, classContains (f e).classList "hidden" = b) :
    firstExtraHidden (extras.map f) = b := by
  cases extras with
  | nil => exact absurd rfl hne
  | cons e rest => exact h e (List.mem_cons_self e rest)

/-- C4 (as stated, refuted): on the sample gallery, whose single extra item is
hidden, three clicks with no animation completion in between leave the extra item
without `hidden` after the second click and give the third click the label
`View more`, not the end state of the first click; and on a gallery without extra
items the first click sets the label to `View more`. -/
theorem gallery_three_clicks_without_completion :
    (((samplePage.certificateGallery.handleToggle 200 480).handleToggle 480 480).extras.map
        (fun e => classContains e.classList "hidden")) = [false] ∧
      (((samplePage.certificateGallery.handleToggle 200 480).handleToggle 480
        480).handleToggle 200 480).toggleText = "View more" ∧
      (samplePage.certificateGallery.handleToggle 200 480).toggleText = "Show fewer" ∧
      (((samplePage.certificateGallery.handleToggle 200 480).handleToggle 480
        480).handleToggle 200 480) ≠ samplePage.certificateGallery.handleToggle 200 480 ∧
      (((CertificateGallery.new [] MaxHeight.unset [] "View more" []
          [{ dataSrc := some "cert.png", dataTitle := none }]).init 200).handleToggle 200
        200).toggleText = "View more" := by
  decide

/-- C4 (amended): from the initial collapsed state of a gallery with at least one
extra item (not expanded, every extra item carries `hidden` and has no pending
completion listener), the first click leaves no extra item with `hidden` and sets
the label to `Show fewer`; a second click sets the label to `View more` and starts
the exit animation of every extra item, and once the completion of that animation
has been delivered to each of them every extra item carries `hidden`; a third
click made after that delivery, with the same two heights measured as at the first
click, yields exactly the state the first click ended in. -/
theorem gallery_three_clicks_with_completion (s : CertificateGallery)
    (offset1 scroll1 offset2 scroll2 : Nat)
    (hne : s.extras ≠ [])
    (hhidden : ∀ e ∈ s.extras,
      classContains e.classList "hidden" = true ∧ e.animationEnd = 0)
    (hcollapsed : s.isExpanded = false) :
    (∀ e ∈ (s.handleToggle offset1 scroll1).extras,
        classContains e.classList "hidden" = false) ∧
      (s.handleToggle offset1 scroll1).toggleText = "Show fewer" ∧
      ((s.handleToggle offset1 scroll1).handleToggle offset2 scroll2).toggleText =
        "View more" ∧
      (∀ e ∈ ((s.handleToggle offset1 scroll1).handleToggle offset2 scroll2).extras,
        classContains e.classList "cert-animate-out" = true ∧ e.animationEnd = 1) ∧
      (∀ e ∈ (((s.handleToggle offset1 scroll1).handleToggle offset2
          scroll2).extrasAnimationEnd).extras,
        classContains e.classList "hidden" = true) ∧
      (((s.handleToggle offset1 scroll1).handleToggle offset2
          scroll2).extrasAnimationEnd).toggleText = "View more" ∧
      ((((s.handleToggle offset1 scroll1).handleToggle offset2
          scroll2).extrasAnimationEnd).handleToggle offset1 scroll1) =
        s.handleToggle offset1 scroll1 := by
  have hfirst : firstExtraHidden s.extras = true := by
    have := firstExtraHidden_map id true s.extras hne (fun e he => (hhidden e he).1)
    simpa using this
  have hg1 := CertificateGallery.handleToggle_show s offset1 scroll1 hfirst
  rw [hcollapsed] at hg1
  simp only [Bool.false_eq_true, if_false] at hg1
  have hfirst1 : firstExtraHidden (s.handleToggle offset1 scroll1).extras = false := by
    rw [hg1]
    exact firstExtraHidden_map showCard false s.extras hne
      (fun e _ => showCard_not_hidden e)
  have hg2 := CertificateGallery.handleToggle_hide (s.handleToggle offset1 scroll1)
    offset2 scroll2 hfirst1
  have hg2c := CertificateGallery.extrasAnimationEnd_eq
    ((s.handleToggle offset1 scroll1).handleToggle offset2 scroll2)
  have hextras2 : ((s.handleToggle offset1 scroll1).handleToggle offset2 scroll2).extras =
      s.extras.map (fun e => hideCard (showCard e)) := by
    rw [hg2, hg1]
    simp [List.map_map]
  have hextras2c : (((s.handleToggle offset1 scroll1).handleToggle offset2
      scroll2).extrasAnimationEnd).extras =
      s.extras.map (fun e => cardAnimationEnd (hideCard (showCard e))) := by
    rw [hg2c]
    simp only [hextras2, List.map_map]
    rfl
  have hfirst2c : firstExtraHidden (((s.handleToggle offset1 scroll1).handleToggle offset2
      scroll2).extrasAnimationEnd).extras = true := by
    rw [hextras2c]
    exact firstExtraHidden_map _ true s.extras hne
      (fun e he => (card_round_trip e (hhidden e he).2).2.2.1)
  have hg3 := CertificateGallery.handleToggle_show
    (((s.handleToggle offset1 scroll1).handleToggle offset2 scroll2).extrasAnimationEnd)
    offset1 scroll1 hfirst2c
  refine ⟨?_, ?_, ?_, ?_, ?_, ?_, ?_⟩
  · intro e he
    rw [hg1] at he
    simp only [List.mem_map] at he
    obtain ⟨e0, _, rfl⟩ := he
    exact showCard_not_hidden e0
  · rw [hg1]
  · rw [hg2]
  · intro e he
    rw [hextras2, List.mem_map] at he
    obtain ⟨e0, he0, rfl⟩ := he
    have := card_round_trip e0 (hhidden e0 he0).2
    exact ⟨this.1, this.2.1⟩
  · intro e he
    rw [hextras2c, List.mem_map] at he
    obtain ⟨e0, he0, rfl⟩ := he
    exact (card_round_trip e0 (hhidden e0 he0).2).2.2.1
  · rw [hg2c, hg2]
  · rw [hg3, hextras2c]
    have hmap : (s.extras.map (fun e => cardAnimationEnd (hideCard (showCard e)))).map
        showCard = s.extras.map showCard := by
      rw [List.map_map]
      apply List.map_congr_left
      intro e he
      exact (card_round_trip e (hhidden e he).2).2.2.2
    rw [hmap, hg2c, hg2, hg1]
    simp only [Bool.false_eq_true, if_false, classAdd_restart_idem]

/-- C4 (amended), instance: the sample gallery, whose single extra item is hidden
after setup. -/
theorem gallery_three_clicks_with_completion_witness :
    ((((samplePage.certificateGallery.handleToggle 200 480).handleToggle 480
          480).extrasAnimationEnd).handleToggle 200 480) =
        samplePage.certificateGallery.handleToggle 200 480 :=
  (gallery_three_clicks_with_completion samplePage.certificateGallery 200 480 480 480
    (by decide) (by decide) (by decide)).2.2.2.2.2.2

end Portfolio
